import Mathlib

/-!
Shallow embedding of the MicroComputer emulator (microemu.c): the virtual
screen (text grid, pixel plane, cursor), the CPU state, and the bytecode
interpreter `execute_instruction`, translated case by case from the source.

Machine integers are modelled as `Nat` with explicit reductions modulo
2^16 (`% 65536`) and modulo 2^8 (`% 256`) exactly where the C code's
`uint16_t` / `uint8_t` types wrap.  Two-dimensional arrays are modelled as
total functions; memory is a function `Nat -> Nat` whose meaningful indices
are below 65536 and whose values are bytes.
-/

/-- The virtual screen (struct VScreen): 25x80 text cells with colour
attributes, a 200x320 monochrome pixel plane, cursor and mode state. -/
structure VScreen where
  chars : Nat → Nat → Nat
  colors : Nat → Nat → Nat
  pixels : Nat → Nat → Nat
  cursor_x : Nat
  cursor_y : Nat
  cursor_visible : Bool
  dirty : Bool
  pixel_mode : Bool
  current_color : Nat

/-- init_screen(): blank grid of spaces (32) in white (colour 7), cursor at
the origin and visible, text mode. -/
def init_screen : VScreen :=
  { chars := fun _ _ => 32
    colors := fun _ _ => 7
    pixels := fun _ _ => 0
    cursor_x := 0
    cursor_y := 0
    cursor_visible := true
    dirty := true
    pixel_mode := false
    current_color := 7 }

/-- clear_screen_display(): simply re-runs init_screen, discarding the old
screen contents. -/
def clear_screen_display (_ : VScreen) : VScreen := init_screen

/-- clear_pixels(): zero the pixel plane and mark the screen dirty. -/
def clear_pixels (s : VScreen) : VScreen :=
  { s with pixels := fun _ _ => 0, dirty := true }

/-- set_pixel(x, y, value): clipped single-pixel write; coordinates are C
ints (possibly negative), hence `Int`.  Writes outside
[0,320) x [0,200) fall through the guard and leave the screen untouched. -/
def set_pixel (x y : Int) (value : Nat) (s : VScreen) : VScreen :=
  if 0 ≤ x ∧ x < 320 ∧ 0 ≤ y ∧ y < 200 then
    { s with
      pixels := fun j i =>
        if j = y.toNat ∧ i = x.toNat then (if value ≠ 0 then 1 else 0)
        else s.pixels j i
      dirty := true }
  else s

/-- Body of the Bresenham loop in draw_line.  The C `while (1)` loop always
terminates (each iteration moves x0 toward x1 or y0 toward y1); the fuel
argument supplied by `draw_line` is large enough to cover every run. -/
def draw_line_aux : Nat → Int → Int → Int → Int → Int → Int → Int → Int →
    Int → VScreen → VScreen
  | 0, _, _, _, _, _, _, _, _, _, s => s
  | fuel+1, x0, y0, x1, y1, sx, sy, dx, dy, err, s =>
    let s1 := set_pixel x0 y0 1 s
    if x0 = x1 ∧ y0 = y1 then s1
    else
      let e2 := 2 * err
      let err1 := if e2 ≥ dy then err + dy else err
      let x0n := if e2 ≥ dy then x0 + sx else x0
      let err2 := if e2 ≤ dx then err1 + dx else err1
      let y0n := if e2 ≤ dx then y0 + sy else y0
      draw_line_aux fuel x0n y0n x1 y1 sx sy dx dy err2 s1

/-- draw_line(x0, y0, x1, y1): Bresenham line, clipped pixel by pixel via
set_pixel. -/
def draw_line (x0 y0 x1 y1 : Int) (s : VScreen) : VScreen :=
  let dx : Int := |x1 - x0|
  let sx : Int := if x0 < x1 then 1 else -1
  let dy : Int := -|y1 - y0|
  let sy : Int := if y0 < y1 then 1 else -1
  draw_line_aux ((x1 - x0).natAbs + (y1 - y0).natAbs + 1)
    x0 y0 x1 y1 sx sy dx dy (dx + dy) s

/-- draw_rect(x, y, w, h): rectangle outline, two counted loops of paired
set_pixel calls (top/bottom edge, then left/right edge). -/
def draw_rect (x y w h : Int) (s : VScreen) : VScreen :=
  let s1 := (List.range w.toNat).foldl
    (fun acc i =>
      set_pixel (x + Int.ofNat i) (y + h - 1) 1
        (set_pixel (x + Int.ofNat i) y 1 acc)) s
  (List.range h.toNat).foldl
    (fun acc i =>
      set_pixel (x + w - 1) (y + Int.ofNat i) 1
        (set_pixel x (y + Int.ofNat i) 1 acc)) s1

/-- fill_rect(x, y, w, h): nested counted loops of set_pixel. -/
def fill_rect (x y w h : Int) (s : VScreen) : VScreen :=
  (List.range h.toNat).foldl
    (fun acc i =>
      (List.range w.toNat).foldl
        (fun acc2 j => set_pixel (x + Int.ofNat j) (y + Int.ofNat i) 1 acc2)
        acc) s

/-- Body of the midpoint-circle loop in draw_circle.  Each iteration either
increments y or decrements x, so the loop in C terminates after at most
radius + 1 iterations; the fuel supplied by `draw_circle` covers this. -/
def draw_circle_aux : Nat → Int → Int → Int → Int → Int → VScreen → VScreen
  | 0, _, _, _, _, _, s => s
  | fuel+1, cx, cy, x, y, err, s =>
    if x ≥ y then
      let s1 := set_pixel (cx + x) (cy + y) 1 s
      let s2 := set_pixel (cx + y) (cy + x) 1 s1
      let s3 := set_pixel (cx - y) (cy + x) 1 s2
      let s4 := set_pixel (cx - x) (cy + y) 1 s3
      let s5 := set_pixel (cx - x) (cy - y) 1 s4
      let s6 := set_pixel (cx - y) (cy - x) 1 s5
      let s7 := set_pixel (cx + y) (cy - x) 1 s6
      let s8 := set_pixel (cx + x) (cy - y) 1 s7
      let y1 := if err ≤ 0 then y + 1 else y
      let err1 := if err ≤ 0 then err + 2 * y1 + 1 else err
      let x1 := if err1 > 0 then x - 1 else x
      let err2 := if err1 > 0 then err1 - (2 * x1 + 1) else err1
      draw_circle_aux fuel cx cy x1 y1 err2 s8
    else s

/-- draw_circle(cx, cy, radius): midpoint circle with 8-way symmetry. -/
def draw_circle (cx cy radius : Int) (s : VScreen) : VScreen :=
  draw_circle_aux (radius.toNat + 2) cx cy radius 0 0 s

/-- putchar_screen(c): write one byte to the text grid.  Newline moves down,
carriage return rewinds the column, backspace steps back (bounded at 0),
tab rounds the column up to a multiple of 4 ((x+4) & ~3, written
arithmetically), and any other byte first wraps a deferred column 80,
then scrolls if the row has run past 24, then stores the glyph and colour
and advances the column. -/
def putchar_screen (c : Nat) (s : VScreen) : VScreen :=
  if c = 10 then
    { s with cursor_y := s.cursor_y + 1, cursor_x := 0, dirty := true }
  else if c = 13 then
    { s with cursor_x := 0, dirty := true }
  else if c = 8 then
    { s with
      cursor_x := if s.cursor_x > 0 then s.cursor_x - 1 else s.cursor_x
      dirty := true }
  else if c = 9 then
    { s with cursor_x := (s.cursor_x + 4) / 4 * 4, dirty := true }
  else
    let x0 := if s.cursor_x ≥ 80 then 0 else s.cursor_x
    let y0 := if s.cursor_x ≥ 80 then s.cursor_y + 1 else s.cursor_y
    let ch1 := if y0 ≥ 25 then
        (fun r cc => if r < 24 then s.chars (r+1) cc
                     else if r = 24 then 32 else s.chars r cc)
      else s.chars
    let co1 := if y0 ≥ 25 then
        (fun r cc => if r < 24 then s.colors (r+1) cc
                     else if r = 24 then s.current_color else s.colors r cc)
      else s.colors
    let y1 := if y0 ≥ 25 then 24 else y0
    { s with
      chars := fun r cc => if r = y1 ∧ cc = x0 then c else ch1 r cc
      colors := fun r cc => if r = y1 ∧ cc = x0 then s.current_color
                            else co1 r cc
      cursor_x := x0 + 1
      cursor_y := y1
      dirty := true }

/-- print_to_screen on a byte list: fold putchar_screen over the bytes. -/
def emit (cs : List Nat) (s : VScreen) : VScreen :=
  cs.foldl (fun acc c => putchar_screen c acc) s

/-- The virtual CPU (struct CPU): 64 KiB byte memory, 16-bit pc and sp,
eight 16-bit registers, comparison flags, and the running flag. -/
structure CPU where
  memory : Nat → Nat
  pc : Nat
  sp : Nat
  regs : Nat → Nat
  flags : Nat
  running : Bool

/-- init_cpu(): memset the whole CPU struct to zero (the 64 KiB memory
array is a field of the struct, so it is zeroed as well), then set
sp = STACK_SIZE - 1 = 255.  The previous CPU state is discarded whole. -/
def init_cpu (_ : CPU) : CPU :=
  { memory := fun _ => 0
    pc := 0
    sp := 255
    regs := fun _ => 0
    flags := 0
    running := false }

/-- load_program: reject images larger than memory, otherwise copy the
image bytes to the bottom of memory, rewind the pc and start running.
Bytes past the image keep their previous contents. -/
def load_program (image : List Nat) (c : CPU) : Option CPU :=
  if image.length > 65536 then none
  else some
    { c with
      memory := fun i => if i < image.length then image.getD i 0
                         else c.memory i
      pc := 0
      running := true }

/-- 16-bit wraparound, the behaviour of the C type uint16_t. -/
def w16 (n : Nat) : Nat := n % 65536

/-- Little-endian combination lo | (hi << 8), as the source writes it. -/
def word16 (lo hi : Nat) : Nat := lo ||| (hi <<< 8)

/-- Single-cell memory store. -/
def memWrite (mem : Nat → Nat) (a v : Nat) : Nat → Nat :=
  fun i => if i = a then v else mem i

/-- Single-register store. -/
def regWrite (regs : Nat → Nat) (r v : Nat) : Nat → Nat :=
  fun i => if i = r then v else regs i

/-- sp-- on a uint16_t: wraps from 0 to 65535. -/
def spDec (sp : Nat) : Nat := (sp + 65535) % 65536

/-- sp++ on a uint16_t. -/
def spInc (sp : Nat) : Nat := (sp + 1) % 65536

/-- MEM_SIZE - STACK_SIZE, the base of the dedicated stack region. -/
def stackBase : Nat := 65280

/-- One uppercase hex digit, as printf %X renders it. -/
def hexDig (n : Nat) : Nat := if n < 10 then 48 + n else 55 + n

/-- The bytes of the message snprintf produces for an unknown opcode:
"Error: Unknown opcode 0xNN" followed by a newline. -/
def errMsg (op : Nat) : List Nat :=
  [69, 114, 114, 111, 114, 58, 32, 85, 110, 107, 110, 111, 119, 110, 32,
   111, 112, 99, 111, 100, 101, 32, 48, 120] ++
  [hexDig (op / 16 % 16), hexDig (op % 16)] ++ [10]

/-- The scan loop of PRINT_STR: emit bytes until a NUL, then consume the
NUL.  The pc is a uint16_t, so the loop condition pc < MEM_SIZE never
fails and the cursor wraps from 65535 back to 0.  If memory holds no NUL
at all, the C loop does not terminate; fuel 65536 covers every
terminating run. -/
def print_str_scan (mem : Nat → Nat) : Nat → Nat → List Nat × Nat
  | pc, 0 => ([], pc)
  | pc, fuel+1 =>
    if pc < 65536 ∧ mem pc ≠ 0 then
      let r := print_str_scan mem (w16 (pc + 1)) fuel
      (mem pc :: r.1, r.2)
    else ([], w16 (pc + 1))

/-- The whole machine visible to the interpreter: CPU plus screen. -/
structure Machine where
  cpu : CPU
  screen : VScreen

/-- execute_instruction(): fetch, decode and execute one instruction,
following the C switch case by case.  `ext` stands for the one external
word an instruction may consume (the wall clock for GET_TIME, the random
draw for RANDOM, the delivered key for READ_CHAR); instructions that use
no external input ignore it.  The result pairs the new machine with the
list of bytes the instruction passed to putchar_screen (also already
applied to the screen).  The opening pc >= MEM_SIZE check is translated
as written; with a 16-bit pc it can never fire. -/
def execute_instruction (ext : Nat) (m : Machine) : Machine × List Nat :=
  let cpu := m.cpu
  if cpu.pc ≥ 65536 then
    ({ m with cpu := { cpu with running := false } }, [])
  else
    let op := cpu.memory cpu.pc
    let p1 := w16 (cpu.pc + 1)
    if op = 0x00 then
      -- HALT
      ({ m with cpu := { cpu with pc := p1, running := false } }, [])
    else if op = 0x01 then
      -- PRINT_CHAR
      if p1 < 65536 then
        let c := cpu.memory p1
        ({ cpu := { cpu with
                    pc := w16 (p1 + 1) }
           screen := putchar_screen c m.screen }, [c])
      else ({ m with cpu := { cpu with pc := p1 } }, [])
    else if op = 0x02 then
      -- PRINT_STR
      let r := print_str_scan cpu.memory p1 65536
      ({ cpu := { cpu with pc := r.2 }, screen := emit r.1 m.screen }, r.1)
    else if op = 0x04 then
      -- CLEAR_SCREEN
      ({ m with
          cpu := { cpu with pc := p1 }
          screen := clear_screen_display m.screen }, [])
    else if op = 0x05 then
      -- SET_COLOR
      if p1 < 65536 then
        let c := cpu.memory p1
        ({ cpu := { cpu with
                    pc := w16 (p1 + 1) }
           screen := if c < 16 then { m.screen with current_color := c }
                     else m.screen }, [])
      else ({ m with cpu := { cpu with pc := p1 } }, [])
    else if op = 0x06 then
      -- GET_CURSOR
      if p1 + 1 < 65536 then
        let rx := cpu.memory p1
        let p2 := w16 (p1 + 1)
        let ry := cpu.memory p2
        let p3 := w16 (p2 + 1)
        let regs1 := if rx < 8 then
            regWrite cpu.regs rx (m.screen.cursor_x % 65536) else cpu.regs
        let regs2 := if ry < 8 then
            regWrite regs1 ry (m.screen.cursor_y % 65536) else regs1
        ({ m with cpu := { cpu with pc := p3, regs := regs2 } }, [])
      else ({ m with cpu := { cpu with pc := p1 } }, [])
    else if op = 0x07 then
      -- SET_CURSOR
      if p1 + 1 < 65536 then
        let x := cpu.memory p1
        let p2 := w16 (p1 + 1)
        let y := cpu.memory p2
        let p3 := w16 (p2 + 1)
        ({ cpu := { cpu with
                    pc := p3 }
           screen :=
             { m.screen with
               cursor_x := if x < 80 then x else m.screen.cursor_x
               cursor_y := if y < 25 then y else m.screen.cursor_y
               dirty := true } }, [])
      else ({ m with cpu := { cpu with pc := p1 } }, [])
    else if op = 0x08 then
      -- DRAW_LINE
      if p1 + 7 < 65536 then
        let x0 := word16 (cpu.memory p1) (cpu.memory (w16 (p1 + 1)))
        let y0 := word16 (cpu.memory (w16 (p1 + 2)))
          (cpu.memory (w16 (p1 + 3)))
        let x1 := word16 (cpu.memory (w16 (p1 + 4)))
          (cpu.memory (w16 (p1 + 5)))
        let y1 := word16 (cpu.memory (w16 (p1 + 6)))
          (cpu.memory (w16 (p1 + 7)))
        ({ cpu := { cpu with
                    pc := w16 (p1 + 8) }
           screen :=
             { draw_line (Int.ofNat x0) (Int.ofNat y0) (Int.ofNat x1)
                 (Int.ofNat y1) m.screen with pixel_mode := true } }, [])
      else ({ m with cpu := { cpu with pc := p1 } }, [])
    else if op = 0x09 then
      -- DRAW_RECT
      if p1 + 7 < 65536 then
        let x := word16 (cpu.memory p1) (cpu.memory (w16 (p1 + 1)))
        let y := word16 (cpu.memory (w16 (p1 + 2)))
          (cpu.memory (w16 (p1 + 3)))
        let w := word16 (cpu.memory (w16 (p1 + 4)))
          (cpu.memory (w16 (p1 + 5)))
        let h := word16 (cpu.memory (w16 (p1 + 6)))
          (cpu.memory (w16 (p1 + 7)))
        ({ cpu := { cpu with
                    pc := w16 (p1 + 8) }
           screen :=
             { draw_rect (Int.ofNat x) (Int.ofNat y) (Int.ofNat w)
                 (Int.ofNat h) m.screen with pixel_mode := true } }, [])
      else ({ m with cpu := { cpu with pc := p1 } }, [])
    else if op = 0x0A then
      -- FILL_RECT
      if p1 + 7 < 65536 then
        let x := word16 (cpu.memory p1) (cpu.memory (w16 (p1 + 1)))
        let y := word16 (cpu.memory (w16 (p1 + 2)))
          (cpu.memory (w16 (p1 + 3)))
        let w := word16 (cpu.memory (w16 (p1 + 4)))
          (cpu.memory (w16 (p1 + 5)))
        let h := word16 (cpu.memory (w16 (p1 + 6)))
          (cpu.memory (w16 (p1 + 7)))
        ({ cpu := { cpu with
                    pc := w16 (p1 + 8) }
           screen :=
             { fill_rect (Int.ofNat x) (Int.ofNat y) (Int.ofNat w)
                 (Int.ofNat h) m.screen with pixel_mode := true } }, [])
      else ({ m with cpu := { cpu with pc := p1 } }, [])
    else if op = 0x0B then
      -- DRAW_CIRCLE
      if p1 + 5 < 65536 then
        let cx := word16 (cpu.memory p1) (cpu.memory (w16 (p1 + 1)))
        let cy := word16 (cpu.memory (w16 (p1 + 2)))
          (cpu.memory (w16 (p1 + 3)))
        let r := word16 (cpu.memory (w16 (p1 + 4)))
          (cpu.memory (w16 (p1 + 5)))
        ({ cpu := { cpu with
                    pc := w16 (p1 + 6) }
           screen :=
             { draw_circle (Int.ofNat cx) (Int.ofNat cy) (Int.ofNat r)
                 m.screen with pixel_mode := true } }, [])
      else ({ m with cpu := { cpu with pc := p1 } }, [])
    else if op = 0x20 then
      -- SLEEP_MS: consumes its operand and sleeps on the host; no VM effect
      if p1 + 1 < 65536 then
        ({ m with cpu := { cpu with pc := w16 (p1 + 2) } }, [])
      else ({ m with cpu := { cpu with pc := p1 } }, [])
    else if op = 0x21 then
      -- BEEP: consumes its operands and beeps on the host; no VM effect
      if p1 + 3 < 65536 then
        ({ m with cpu := { cpu with pc := w16 (p1 + 4) } }, [])
      else ({ m with cpu := { cpu with pc := p1 } }, [])
    else if op = 0x22 then
      -- GET_TIME: low 16 bits of the wall clock (external input)
      if p1 < 65536 then
        let reg := cpu.memory p1
        ({ m with cpu :=
          { cpu with
            pc := w16 (p1 + 1)
            regs := if reg < 8 then regWrite cpu.regs reg (ext % 65536)
                    else cpu.regs } }, [])
      else ({ m with cpu := { cpu with pc := p1 } }, [])
    else if op = 0x23 then
      -- RANDOM: guard only covers two of the three operand bytes, as in C
      if p1 + 1 < 65536 then
        let reg := cpu.memory p1
        let p2 := w16 (p1 + 1)
        let lo := cpu.memory p2
        let p3 := w16 (p2 + 1)
        let hi := cpu.memory p3
        let p4 := w16 (p3 + 1)
        let maxv := word16 lo hi
        ({ m with cpu :=
          { cpu with
            pc := p4
            regs := if reg < 8 then
                regWrite cpu.regs reg (ext % (maxv + 1)) else cpu.regs } },
         [])
      else ({ m with cpu := { cpu with pc := p1 } }, [])
    else if op = 0x30 then
      -- SET_PIXEL: guard only covers three of the five operand bytes
      if p1 + 2 < 65536 then
        let x := word16 (cpu.memory p1) (cpu.memory (w16 (p1 + 1)))
        let y := word16 (cpu.memory (w16 (p1 + 2)))
          (cpu.memory (w16 (p1 + 3)))
        let val := cpu.memory (w16 (p1 + 4))
        ({ cpu := { cpu with
                    pc := w16 (p1 + 5) }
           screen :=
             { set_pixel (Int.ofNat x) (Int.ofNat y) val m.screen with
               pixel_mode := true } }, [])
      else ({ m with cpu := { cpu with pc := p1 } }, [])
    else if op = 0x31 then
      -- CLEAR_PIXELS
      ({ m with
          cpu := { cpu with pc := p1 }
          screen := { clear_pixels m.screen with pixel_mode := false } },
       [])
    else if op = 0x40 then
      -- LOAD_REG
      if p1 + 2 < 65536 then
        let reg := cpu.memory p1
        let v := word16 (cpu.memory (w16 (p1 + 1))) (cpu.memory (w16 (p1 + 2)))
        ({ m with cpu :=
          { cpu with
            pc := w16 (p1 + 3)
            regs := if reg < 8 then regWrite cpu.regs reg v
                    else cpu.regs } }, [])
      else ({ m with cpu := { cpu with pc := p1 } }, [])
    else if op = 0x41 then
      -- STORE_REG: outer guard, then a second guard before the address read
      if p1 < 65536 then
        let reg := cpu.memory p1
        let p2 := w16 (p1 + 1)
        if reg < 8 ∧ p2 + 1 < 65536 then
          let addr := word16 (cpu.memory p2) (cpu.memory (w16 (p2 + 1)))
          let p4 := w16 (p2 + 2)
          if addr + 1 < 65536 then
            ({ m with cpu :=
              { cpu with
                pc := p4
                memory := memWrite
                  (memWrite cpu.memory addr (cpu.regs reg % 256))
                  (addr + 1) (cpu.regs reg / 256 % 256) } }, [])
          else ({ m with cpu := { cpu with pc := p4 } }, [])
        else ({ m with cpu := { cpu with pc := p2 } }, [])
      else ({ m with cpu := { cpu with pc := p1 } }, [])
    else if op = 0x42 then
      -- PUSH: two byte writes, sp-- after each; the guard only demands
      -- sp > 0, so a push from sp = 1 wraps sp to 65535
      if p1 < 65536 then
        let reg := cpu.memory p1
        let p2 := w16 (p1 + 1)
        if reg < 8 ∧ cpu.sp > 0 then
          let mem1 := memWrite cpu.memory (stackBase + cpu.sp)
            (cpu.regs reg % 256)
          let sp1 := spDec cpu.sp
          let mem2 := memWrite mem1 (stackBase + sp1)
            (cpu.regs reg / 256 % 256)
          let sp2 := spDec sp1
          ({ m with cpu :=
            { cpu with pc := p2, sp := sp2, memory := mem2 } }, [])
        else ({ m with cpu := { cpu with pc := p2 } }, [])
      else ({ m with cpu := { cpu with pc := p1 } }, [])
    else if op = 0x43 then
      -- POP: sp++ before each of the two byte reads
      if p1 < 65536 then
        let reg := cpu.memory p1
        let p2 := w16 (p1 + 1)
        if reg < 8 ∧ cpu.sp < 255 then
          let sp1 := spInc cpu.sp
          let lo := cpu.memory (stackBase + sp1)
          let sp2 := spInc sp1
          let v := word16 lo (cpu.memory (stackBase + sp2))
          ({ m with cpu :=
            { cpu with
              pc := p2, sp := sp2
              regs := regWrite cpu.regs reg v } }, [])
        else ({ m with cpu := { cpu with pc := p2 } }, [])
      else ({ m with cpu := { cpu with pc := p1 } }, [])
    else if op = 0x50 then
      -- ADD (uint16 wraparound)
      if p1 + 2 < 65536 then
        let dst := cpu.memory p1
        let src1 := cpu.memory (w16 (p1 + 1))
        let src2 := cpu.memory (w16 (p1 + 2))
        ({ m with cpu :=
          { cpu with
            pc := w16 (p1 + 3)
            regs := if dst < 8 ∧ src1 < 8 ∧ src2 < 8 then
                regWrite cpu.regs dst
                  ((cpu.regs src1 + cpu.regs src2) % 65536)
              else cpu.regs } }, [])
      else ({ m with cpu := { cpu with pc := p1 } }, [])
    else if op = 0x51 then
      -- SUB (uint16 wraparound)
      if p1 + 2 < 65536 then
        let dst := cpu.memory p1
        let src1 := cpu.memory (w16 (p1 + 1))
        let src2 := cpu.memory (w16 (p1 + 2))
        ({ m with cpu :=
          { cpu with
            pc := w16 (p1 + 3)
            regs := if dst < 8 ∧ src1 < 8 ∧ src2 < 8 then
                regWrite cpu.regs dst
                  ((cpu.regs src1 + 65536 - cpu.regs src2 % 65536) % 65536)
              else cpu.regs } }, [])
      else ({ m with cpu := { cpu with pc := p1 } }, [])
    else if op = 0x52 then
      -- MUL (uint16 wraparound)
      if p1 + 2 < 65536 then
        let dst := cpu.memory p1
        let src1 := cpu.memory (w16 (p1 + 1))
        let src2 := cpu.memory (w16 (p1 + 2))
        ({ m with cpu :=
          { cpu with
            pc := w16 (p1 + 3)
            regs := if dst < 8 ∧ src1 < 8 ∧ src2 < 8 then
                regWrite cpu.regs dst
                  ((cpu.regs src1 * cpu.regs src2) % 65536)
              else cpu.regs } }, [])
      else ({ m with cpu := { cpu with pc := p1 } }, [])
    else if op = 0x53 then
      -- DIV: division by zero makes the instruction a no-op
      if p1 + 2 < 65536 then
        let dst := cpu.memory p1
        let src1 := cpu.memory (w16 (p1 + 1))
        let src2 := cpu.memory (w16 (p1 + 2))
        ({ m with cpu :=
          { cpu with
            pc := w16 (p1 + 3)
            regs := if dst < 8 ∧ src1 < 8 ∧ src2 < 8 ∧ cpu.regs src2 ≠ 0 then
                regWrite cpu.regs dst (cpu.regs src1 / cpu.regs src2)
              else cpu.regs } }, [])
      else ({ m with cpu := { cpu with pc := p1 } }, [])
    else if op = 0x54 then
      -- MOD: modulus by zero makes the instruction a no-op
      if p1 + 2 < 65536 then
        let dst := cpu.memory p1
        let src1 := cpu.memory (w16 (p1 + 1))
        let src2 := cpu.memory (w16 (p1 + 2))
        ({ m with cpu :=
          { cpu with
            pc := w16 (p1 + 3)
            regs := if dst < 8 ∧ src1 < 8 ∧ src2 < 8 ∧ cpu.regs src2 ≠ 0 then
                regWrite cpu.regs dst (cpu.regs src1 % cpu.regs src2)
              else cpu.regs } }, [])
      else ({ m with cpu := { cpu with pc := p1 } }, [])
    else if op = 0x55 then
      -- AND
      if p1 + 2 < 65536 then
        let dst := cpu.memory p1
        let src1 := cpu.memory (w16 (p1 + 1))
        let src2 := cpu.memory (w16 (p1 + 2))
        ({ m with cpu :=
          { cpu with
            pc := w16 (p1 + 3)
            regs := if dst < 8 ∧ src1 < 8 ∧ src2 < 8 then
                regWrite cpu.regs dst (cpu.regs src1 &&& cpu.regs src2)
              else cpu.regs } }, [])
      else ({ m with cpu := { cpu with pc := p1 } }, [])
    else if op = 0x56 then
      -- OR
      if p1 + 2 < 65536 then
        let dst := cpu.memory p1
        let src1 := cpu.memory (w16 (p1 + 1))
        let src2 := cpu.memory (w16 (p1 + 2))
        ({ m with cpu :=
          { cpu with
            pc := w16 (p1 + 3)
            regs := if dst < 8 ∧ src1 < 8 ∧ src2 < 8 then
                regWrite cpu.regs dst (cpu.regs src1 ||| cpu.regs src2)
              else cpu.regs } }, [])
      else ({ m with cpu := { cpu with pc := p1 } }, [])
    else if op = 0x57 then
      -- XOR
      if p1 + 2 < 65536 then
        let dst := cpu.memory p1
        let src1 := cpu.memory (w16 (p1 + 1))
        let src2 := cpu.memory (w16 (p1 + 2))
        ({ m with cpu :=
          { cpu with
            pc := w16 (p1 + 3)
            regs := if dst < 8 ∧ src1 < 8 ∧ src2 < 8 then
                regWrite cpu.regs dst (cpu.regs src1 ^^^ cpu.regs src2)
              else cpu.regs } }, [])
      else ({ m with cpu := { cpu with pc := p1 } }, [])
    else if op = 0x58 then
      -- NOT: 16-bit complement of the source register
      if p1 + 1 < 65536 then
        let dst := cpu.memory p1
        let src := cpu.memory (w16 (p1 + 1))
        ({ m with cpu :=
          { cpu with
            pc := w16 (p1 + 2)
            regs := if dst < 8 ∧ src < 8 then
                regWrite cpu.regs dst (65535 - cpu.regs src % 65536)
              else cpu.regs } }, [])
      else ({ m with cpu := { cpu with pc := p1 } }, [])
    else if op = 0x59 then
      -- SHL (in place, shift amount from a register; truncated to 16 bits)
      if p1 + 1 < 65536 then
        let dst := cpu.memory p1
        let src := cpu.memory (w16 (p1 + 1))
        ({ m with cpu :=
          { cpu with
            pc := w16 (p1 + 2)
            regs := if dst < 8 ∧ src < 8 then
                regWrite cpu.regs dst
                  ((cpu.regs dst <<< cpu.regs src) % 65536)
              else cpu.regs } }, [])
      else ({ m with cpu := { cpu with pc := p1 } }, [])
    else if op = 0x5A then
      -- SHR (in place)
      if p1 + 1 < 65536 then
        let dst := cpu.memory p1
        let src := cpu.memory (w16 (p1 + 1))
        ({ m with cpu :=
          { cpu with
            pc := w16 (p1 + 2)
            regs := if dst < 8 ∧ src < 8 then
                regWrite cpu.regs dst (cpu.regs dst >>> cpu.regs src)
              else cpu.regs } }, [])
      else ({ m with cpu := { cpu with pc := p1 } }, [])
    else if op = 0x5B then
      -- CMP: clear the flags, then or in Zero (1), Greater (2), Less (4)
      if p1 + 1 < 65536 then
        let src1 := cpu.memory p1
        let src2 := cpu.memory (w16 (p1 + 1))
        ({ m with cpu :=
          { cpu with
            pc := w16 (p1 + 2)
            flags := if src1 < 8 ∧ src2 < 8 then
                let f0 : Nat := 0
                let f1 := if cpu.regs src1 = cpu.regs src2 then f0 ||| 1
                          else f0
                let f2 := if cpu.regs src1 > cpu.regs src2 then f1 ||| 2
                          else f1
                if cpu.regs src1 < cpu.regs src2 then f2 ||| 4 else f2
              else cpu.flags } }, [])
      else ({ m with cpu := { cpu with pc := p1 } }, [])
    else if op = 0x60 then
      -- JMP
      if p1 + 1 < 65536 then
        let addr := word16 (cpu.memory p1) (cpu.memory (w16 (p1 + 1)))
        let p3 := w16 (p1 + 2)
        ({ m with cpu :=
          { cpu with pc := if addr < 65536 then addr else p3 } }, [])
      else ({ m with cpu := { cpu with pc := p1 } }, [])
    else if op = 0x61 then
      -- JZ
      if p1 + 1 < 65536 then
        let addr := word16 (cpu.memory p1) (cpu.memory (w16 (p1 + 1)))
        let p3 := w16 (p1 + 2)
        ({ m with cpu :=
          { cpu with
            pc := if cpu.flags &&& 1 ≠ 0 ∧ addr < 65536 then addr
                           else p3 } }, [])
      else ({ m with cpu := { cpu with pc := p1 } }, [])
    else if op = 0x62 then
      -- JNZ
      if p1 + 1 < 65536 then
        let addr := word16 (cpu.memory p1) (cpu.memory (w16 (p1 + 1)))
        let p3 := w16 (p1 + 2)
        ({ m with cpu :=
          { cpu with
            pc := if cpu.flags &&& 1 = 0 ∧ addr < 65536 then addr
                           else p3 } }, [])
      else ({ m with cpu := { cpu with pc := p1 } }, [])
    else if op = 0x63 then
      -- JG
      if p1 + 1 < 65536 then
        let addr := word16 (cpu.memory p1) (cpu.memory (w16 (p1 + 1)))
        let p3 := w16 (p1 + 2)
        ({ m with cpu :=
          { cpu with
            pc := if cpu.flags &&& 2 ≠ 0 ∧ addr < 65536 then addr
                           else p3 } }, [])
      else ({ m with cpu := { cpu with pc := p1 } }, [])
    else if op = 0x64 then
      -- JL
      if p1 + 1 < 65536 then
        let addr := word16 (cpu.memory p1) (cpu.memory (w16 (p1 + 1)))
        let p3 := w16 (p1 + 2)
        ({ m with cpu :=
          { cpu with
            pc := if cpu.flags &&& 4 ≠ 0 ∧ addr < 65536 then addr
                           else p3 } }, [])
      else ({ m with cpu := { cpu with pc := p1 } }, [])
    else if op = 0x65 then
      -- CALL: read the target, push the return address low byte first
      -- (sp-- after each byte), then jump
      if p1 + 1 < 65536 ∧ cpu.sp > 1 then
        let addr := word16 (cpu.memory p1) (cpu.memory (w16 (p1 + 1)))
        let p3 := w16 (p1 + 2)
        let mem1 := memWrite cpu.memory (stackBase + cpu.sp) (p3 % 256)
        let sp1 := spDec cpu.sp
        let mem2 := memWrite mem1 (stackBase + sp1) (p3 / 256 % 256)
        let sp2 := spDec sp1
        ({ m with cpu :=
          { cpu with
            pc := if addr < 65536 then addr else p3
            sp := sp2, memory := mem2 } }, [])
      else ({ m with cpu := { cpu with pc := p1 } }, [])
    else if op = 0x66 then
      -- RET: pop two bytes (sp++ before each read), first byte into the
      -- low half of the address, second into the high half
      if cpu.sp < 255 then
        let sp1 := spInc cpu.sp
        let lo := cpu.memory (stackBase + sp1)
        let sp2 := spInc sp1
        let addr := word16 lo (cpu.memory (stackBase + sp2))
        ({ m with cpu :=
          { cpu with
            pc := if addr < 65536 then addr else p1
            sp := sp2 } }, [])
      else ({ m with cpu := { cpu with pc := p1 } }, [])
    else if op = 0x70 then
      -- READ_CHAR: blocks on the input bus; the delivered character is the
      -- external input
      if p1 < 65536 then
        let reg := cpu.memory p1
        ({ m with cpu :=
          { cpu with
            pc := w16 (p1 + 1)
            regs := if reg < 8 then regWrite cpu.regs reg (ext % 256)
                    else cpu.regs } }, [])
      else ({ m with cpu := { cpu with pc := p1 } }, [])
    else if op = 0x80 then
      -- LOAD_MEM
      if p1 + 2 < 65536 then
        let reg := cpu.memory p1
        let addr := word16 (cpu.memory (w16 (p1 + 1)))
          (cpu.memory (w16 (p1 + 2)))
        ({ m with cpu :=
          { cpu with
            pc := w16 (p1 + 3)
            regs := if reg < 8 ∧ addr + 1 < 65536 then
                regWrite cpu.regs reg
                  (word16 (cpu.memory addr) (cpu.memory (addr + 1)))
              else cpu.regs } }, [])
      else ({ m with cpu := { cpu with pc := p1 } }, [])
    else if op = 0x81 then
      -- STORE_MEM
      if p1 + 2 < 65536 then
        let addr := word16 (cpu.memory p1) (cpu.memory (w16 (p1 + 1)))
        let reg := cpu.memory (w16 (p1 + 2))
        ({ m with cpu :=
          { cpu with
            pc := w16 (p1 + 3)
            memory := if reg < 8 ∧ addr + 1 < 65536 then
                memWrite (memWrite cpu.memory addr (cpu.regs reg % 256))
                  (addr + 1) (cpu.regs reg / 256 % 256)
              else cpu.memory } }, [])
      else ({ m with cpu := { cpu with pc := p1 } }, [])
    else if op = 0x82 then
      -- COPY_MEM: overlap-safe copy (memmove semantics)
      if p1 + 5 < 65536 then
        let src := word16 (cpu.memory p1) (cpu.memory (w16 (p1 + 1)))
        let dst := word16 (cpu.memory (w16 (p1 + 2)))
          (cpu.memory (w16 (p1 + 3)))
        let len := word16 (cpu.memory (w16 (p1 + 4)))
          (cpu.memory (w16 (p1 + 5)))
        ({ m with cpu :=
          { cpu with
            pc := w16 (p1 + 6)
            memory := if src + len < 65536 ∧ dst + len < 65536 then
                fun i => if dst ≤ i ∧ i < dst + len then
                    cpu.memory (src + (i - dst))
                  else cpu.memory i
              else cpu.memory } }, [])
      else ({ m with cpu := { cpu with pc := p1 } }, [])
    else
      -- default: unknown opcode; print the error line and halt.
      -- Note opcodes 0x32 (DRAW_SPRITE) and 0x71 (KEY_PRESSED) are
      -- declared in the source header but have no case in the switch,
      -- so they land here.
      ({ cpu := { cpu with
                  pc := p1, running := false }
         screen := emit (errMsg op) m.screen }, errMsg op)

/-- Iterate the interpreter n times with a fixed external input (used by
programs whose instructions consume no external input). -/
def stepN (ext : Nat) : Nat → Machine → Machine
  | 0, m => m
  | n+1, m => stepN ext n (execute_instruction ext m).1

/-- A program exercising CALL and RET: CALL 0x0010 at address 0, RET at
address 16, everything else zero. -/
def callRetMem : Nat → Nat := fun i =>
  if i = 0 then 0x65 else if i = 1 then 0x10 else if i = 16 then 0x66 else 0

/-- Freshly loaded machine for the CALL/RET program. -/
def callRetMachine : Machine :=
  { cpu := { memory := callRetMem, pc := 0, sp := 255, regs := fun _ => 0,
             flags := 0, running := true }
    screen := init_screen }

/-- A program of 128 consecutive PUSH r0 instructions (0x42 0x00 pairs). -/
def pushFloodMem : Nat → Nat := fun i =>
  if i < 256 then (if i % 2 = 0 then 0x42 else 0) else 0

/-- Freshly loaded machine for the PUSH flood program. -/
def pushFloodMachine : Machine :=
  { cpu := { memory := pushFloodMem, pc := 0, sp := 255, regs := fun _ => 0,
             flags := 0, running := true }
    screen := init_screen }

/-- A program whose first instruction is KEY_PRESSED r0 (0x71 0x00). -/
def keyPressedMachine : Machine :=
  { cpu := { memory := fun i => if i = 0 then 0x71 else 0, pc := 0,
             sp := 255, regs := fun _ => 0, flags := 0, running := true }
    screen := init_screen }

/-- A truncated program: a LOAD_REG opcode at address 65533, whose three
operand bytes would need addresses 65534, 65535 and 65536 -- one byte
past the end of memory. -/
def truncMachine : Machine :=
  { cpu := { memory := fun i => if i = 65533 then 0x40 else 0, pc := 65533,
             sp := 255, regs := fun _ => 0, flags := 0, running := true }
    screen := init_screen }

/-- A CPU state with nonzero contents everywhere, used to observe what
reset preserves. -/
def prevCPU : CPU :=
  { memory := fun i => if i = 0 then 7 else 0, pc := 5, sp := 9,
    regs := fun _ => 3, flags := 1, running := true }

/-- A screen whose cursor sits at the bottom text row. -/
def row24Screen : VScreen := { init_screen with cursor_y := 24 }

/-- A screen whose cursor sits at the last text column. -/
def col79Screen : VScreen := { init_screen with cursor_x := 79 }

/-- A machine about to execute CMP r1, r2 with regs r1 = 5, r2 = 9. -/
def cmpMachine : Machine :=
  { cpu := { memory := fun i => if i = 0 then 0x5B else if i = 1 then 1
               else if i = 2 then 2 else 0
             pc := 0, sp := 255
             regs := fun i => if i = 1 then 5 else if i = 2 then 9 else 0
             flags := 0, running := true }
    screen := init_screen }

/-- A machine about to execute ADD r0, r1, r2 with regs r1 = 40000,
r2 = 30000. -/
def addMachine : Machine :=
  { cpu := { memory := fun i => if i = 0 then 0x50 else if i = 1 then 0
               else if i = 2 then 1 else if i = 3 then 2 else 0
             pc := 0, sp := 255
             regs := fun i => if i = 1 then 40000 else if i = 2 then 30000
               else 0
             flags := 0, running := true }
    screen := init_screen }

/-- A machine about to execute PUSH r0 then POP r1 with regs r0 = 0x1234. -/
def pushPopMachine : Machine :=
  { cpu := { memory := fun i => if i = 0 then 0x42 else if i = 1 then 0
               else if i = 2 then 0x43 else if i = 3 then 1 else 0
             pc := 0, sp := 255
             regs := fun i => if i = 0 then 0x1234 else 0
             flags := 0, running := true }
    screen := init_screen }

/-- The opcodes whose operand-bounds guard in the switch has the form
pc + j < MEM_SIZE with j at least 1 (the only guards that can ever fail,
since a plain pc < MEM_SIZE test on a uint16_t pc is always true),
paired with that j. -/
def guardedOps : List (Nat × Nat) :=
  [(0x06, 1), (0x07, 1), (0x08, 7), (0x09, 7), (0x0A, 7), (0x0B, 5),
   (0x20, 1), (0x21, 3), (0x23, 1), (0x30, 2), (0x40, 2),
   (0x50, 2), (0x51, 2), (0x52, 2), (0x53, 2), (0x54, 2), (0x55, 2),
   (0x56, 2), (0x57, 2), (0x58, 1), (0x59, 1), (0x5A, 1), (0x5B, 1),
   (0x60, 1), (0x61, 1), (0x62, 1), (0x63, 1), (0x64, 1), (0x65, 1),
   (0x80, 2), (0x81, 2), (0x82, 5)]

lemma word16_eq (lo hi : Nat) (h : lo < 256) : word16 lo hi = lo + 256 * hi := by
  unfold word16
  rw [Nat.shiftLeft_eq, Nat.lor_comm,
    show hi * 2 ^ 8 = 2 ^ 8 * hi from Nat.mul_comm hi (2 ^ 8),
    ← Nat.mul_add_lt_is_or (by omega) hi]
  omega

lemma set_pixel_out (s : VScreen) (x y : Int) (v : Nat)
    (h : x < 0 ∨ 320 ≤ x ∨ y < 0 ∨ 200 ≤ y) : set_pixel x y v s = s := by
  unfold set_pixel
  rw [if_neg]
  intro hc
  rcases h with h | h | h | h <;> omega

lemma set_pixel_pixels_out (s : VScreen) (x y : Int) (v : Nat) (j i : Nat)
    (h : 320 ≤ i ∨ 200 ≤ j) :
    (set_pixel x y v s).pixels j i = s.pixels j i := by
  unfold set_pixel
  split
  · next hc =>
    dsimp only
    rw [if_neg]
    intro hji
    rcases h with h | h <;> omega
  · rfl

lemma foldl_pixels_out {α : Type} (f : VScreen → α → VScreen) (j i : Nat)
    (H : ∀ s a, (f s a).pixels j i = s.pixels j i) :
    ∀ (l : List α) (s : VScreen), (l.foldl f s).pixels j i = s.pixels j i := by
  intro l
  induction l with
  | nil => intro s; rfl
  | cons hd tl ih => intro s; rw [List.foldl_cons, ih, H]

lemma draw_line_aux_pixels_out (j i : Nat) (h : 320 ≤ i ∨ 200 ≤ j) :
    ∀ (fuel : Nat) (x0 y0 x1 y1 sx sy dx dy err : Int) (s : VScreen),
      (draw_line_aux fuel x0 y0 x1 y1 sx sy dx dy err s).pixels j i =
        s.pixels j i := by
  intro fuel
  induction fuel with
  | zero => intro x0 y0 x1 y1 sx sy dx dy err s; rfl
  | succ n ih =>
    intro x0 y0 x1 y1 sx sy dx dy err s
    unfold draw_line_aux
    dsimp only
    split
    · rw [set_pixel_pixels_out _ _ _ _ _ _ h]
    · rw [ih, set_pixel_pixels_out _ _ _ _ _ _ h]

lemma draw_circle_aux_pixels_out (j i : Nat) (h : 320 ≤ i ∨ 200 ≤ j) :
    ∀ (fuel : Nat) (cx cy x y err : Int) (s : VScreen),
      (draw_circle_aux fuel cx cy x y err s).pixels j i = s.pixels j i := by
  intro fuel
  induction fuel with
  | zero => intro cx cy x y err s; rfl
  | succ n ih =>
    intro cx cy x y err s
    unfold draw_circle_aux
    dsimp only
    split
    · rw [ih]
      simp only [set_pixel_pixels_out _ _ _ _ _ _ h]
    · rfl

lemma draw_line_pixels_out (j i : Nat) (h : 320 ≤ i ∨ 200 ≤ j)
    (a b c d : Int) (s : VScreen) :
    (draw_line a b c d s).pixels j i = s.pixels j i := by
  unfold draw_line
  rw [draw_line_aux_pixels_out j i h]

lemma draw_rect_pixels_out (j i : Nat) (h : 320 ≤ i ∨ 200 ≤ j)
    (a b c d : Int) (s : VScreen) :
    (draw_rect a b c d s).pixels j i = s.pixels j i := by
  unfold draw_rect
  rw [foldl_pixels_out _ j i, foldl_pixels_out _ j i]
  · intro s0 k
    rw [set_pixel_pixels_out _ _ _ _ _ _ h, set_pixel_pixels_out _ _ _ _ _ _ h]
  · intro s0 k
    rw [set_pixel_pixels_out _ _ _ _ _ _ h, set_pixel_pixels_out _ _ _ _ _ _ h]

lemma fill_rect_pixels_out (j i : Nat) (h : 320 ≤ i ∨ 200 ≤ j)
    (a b c d : Int) (s : VScreen) :
    (fill_rect a b c d s).pixels j i = s.pixels j i := by
  unfold fill_rect
  rw [foldl_pixels_out _ j i]
  intro s0 k
  rw [foldl_pixels_out _ j i]
  intro s1 l
  rw [set_pixel_pixels_out _ _ _ _ _ _ h]

lemma draw_circle_pixels_out (j i : Nat) (h : 320 ≤ i ∨ 200 ≤ j)
    (a b c : Int) (s : VScreen) :
    (draw_circle a b c s).pixels j i = s.pixels j i := by
  unfold draw_circle
  rw [draw_circle_aux_pixels_out j i h]

/-- Claim C1.  The claim states that CALL followed by RET restores the pc
to the instruction after the CALL, the two return-address bytes being
pushed high byte first so that RET recovers them.  The code refutes this:
CALL pushes the low byte first, and RET assembles the first popped byte
into the low half of the address, so the recovered address is the
byte-swapped return address.  On the concrete program with CALL 0x0010 at
address 0 (return address 3 = 0x0003) and RET at address 16, the CALL
lands at 16 and the RET lands at 768 = 0x0300, not at 3. -/
theorem c1_call_ret_round_trip_fails :
    (stepN 0 1 callRetMachine).cpu.pc = 16 ∧
    (stepN 0 2 callRetMachine).cpu.pc = 768 ∧
    (stepN 0 2 callRetMachine).cpu.pc ≠ 3 := by decide

/-- Claim C2, counterexample.  The claim states that an instruction whose
operand bytes extend past the end of memory halts the VM silently
(running becomes false).  On the concrete truncated program -- LOAD_REG
(0x40) at address 65533, whose three operand bytes would end at address
65536 -- the step leaves running true, prints nothing, and merely moves
the pc past the opcode byte. -/
theorem c2_truncated_operand_keeps_running :
    (execute_instruction 0 truncMachine).1.cpu.running = true ∧
    (execute_instruction 0 truncMachine).2 = [] ∧
    (execute_instruction 0 truncMachine).1.cpu.pc = 65534 := by decide

set_option maxHeartbeats 2000000 in
/-- Claim C2, amended.  For every opcode whose operand-bounds guard in the
switch can detect the truncation (the guards of the form
pc + j < MEM_SIZE listed in guardedOps), a failing guard makes the
instruction a silent no-op: the machine keeps running, nothing is
printed, and the only change is that the pc has moved past the opcode
byte. -/
theorem c2_truncated_operand_noop (e : Nat) (m : Machine) (p : Nat × Nat)
    (hmem : p ∈ guardedOps)
    (hop : m.cpu.memory m.cpu.pc = p.1)
    (hpc : m.cpu.pc ≤ 65534)
    (hj : 65536 ≤ m.cpu.pc + 1 + p.2) :
    execute_instruction e m =
      ({ m with cpu := { m.cpu with pc := m.cpu.pc + 1 } }, []) := by
  have e1 : w16 (m.cpu.pc + 1) = m.cpu.pc + 1 := by unfold w16; omega
  have hnot : ¬ (m.cpu.pc ≥ 65536) := by omega
  fin_cases hmem <;>
    (simp only [] at hop hj
     simp only [execute_instruction, hop, e1, hnot, if_false]
     norm_num
     first
     | rfl
     | (exact fun h => absurd h (by omega)))

/-- Claim C2, witness for the amended theorem at the concrete truncated
LOAD_REG program. -/
theorem c2_truncated_operand_noop_witness :
    ((0x40, 2) : Nat × Nat) ∈ guardedOps ∧
    execute_instruction 0 truncMachine =
      ({ truncMachine with cpu := { truncMachine.cpu with
          pc := truncMachine.cpu.pc + 1 } }, []) :=
  ⟨by decide,
   c2_truncated_operand_noop 0 truncMachine (0x40, 2) (by decide) (by decide)
     (by decide) (by decide)⟩

set_option maxRecDepth 100000 in
/-- Claim C3.  The claim states that pc < 65536 and sp stays in [0, 255]
after any number of steps, stack overflow being a silent no-op.  The code
refutes the sp half: the PUSH guard only demands sp > 0 although a push
writes two bytes and decrements sp twice, so the 128th PUSH of this
program runs with sp = 1 and wraps sp to 65535 (the matching CALL guard
demands sp > 1, which is the correct bound). -/
theorem c3_sp_leaves_range :
    (stepN 0 127 pushFloodMachine).cpu.sp = 1 ∧
    (stepN 0 128 pushFloodMachine).cpu.sp = 65535 ∧
    ¬ ((stepN 0 128 pushFloodMachine).cpu.sp ≤ 255) := by decide

/-- Claim C4.  The claim states that opcode 0x71 (KEY_PRESSED) is
non-blocking, sets regs r from char_ready and keeps the VM running.  The
switch has no case for 0x71, so the opcode falls into the default case:
the VM prints the line shown below (the bytes of the text
Error: Unknown opcode 0x71 followed by a newline) and halts. -/
theorem c4_key_pressed_unknown_opcode :
    (execute_instruction 0 keyPressedMachine).1.cpu.running = false ∧
    (execute_instruction 0 keyPressedMachine).2 = errMsg 0x71 ∧
    errMsg 0x71 =
      [69, 114, 114, 111, 114, 58, 32, 85, 110, 107, 110, 111, 119, 110,
       32, 111, 112, 99, 111, 100, 101, 32, 48, 120, 55, 49, 10] := by decide

/-- Claim C5, counterexample.  The claim states that reset zeroes the CPU
structure except memory, leaving every memory byte unchanged.  In the
code memset covers the whole struct, memory array included: byte 0 of
prevCPU holds 7 before the reset and 0 after it. -/
theorem c5_reset_clears_memory :
    prevCPU.memory 0 = 7 ∧ (init_cpu prevCPU).memory 0 = 0 := by decide

/-- Claim C5, amended.  Reset zeroes the whole CPU structure, memory
included, and then sets sp = 255; afterwards running is false and pc,
registers and flags are 0.  Loading an image of admissible length copies
exactly the image bytes to the bottom of memory, rewinds the pc and sets
running, and leaves every byte past the image (and sp and the registers)
as they were before the load. -/
theorem c5_reset_and_load (prev : CPU) (image : List Nat) (c : CPU)
    (hlen : image.length ≤ 65536) :
    (init_cpu prev).sp = 255 ∧ (init_cpu prev).running = false ∧
    (init_cpu prev).pc = 0 ∧ (init_cpu prev).flags = 0 ∧
    (∀ r, (init_cpu prev).regs r = 0) ∧
    (∀ i, (init_cpu prev).memory i = 0) ∧
    ∃ c2, load_program image c = some c2 ∧ c2.pc = 0 ∧ c2.running = true ∧
      c2.sp = c.sp ∧ (∀ r, c2.regs r = c.regs r) ∧
      (∀ i, i < image.length → c2.memory i = image.getD i 0) ∧
      (∀ i, image.length ≤ i → c2.memory i = c.memory i) := by
  refine ⟨rfl, rfl, rfl, rfl, fun r => rfl, fun i => rfl, ?_⟩
  unfold load_program
  rw [if_neg (by omega)]
  refine ⟨_, rfl, rfl, rfl, rfl, fun r => rfl, ?_, ?_⟩
  · intro i hi
    simp [hi]
  · intro i hi
    simp [Nat.not_lt.2 hi]

/-- Claim C5, witness for the amended theorem: reset from a dirty CPU
state, then load the three-byte image [1, 2, 3]. -/
theorem c5_reset_and_load_witness :
    ([1, 2, 3] : List Nat).length ≤ 65536 ∧
    ((init_cpu prevCPU).sp = 255 ∧ (init_cpu prevCPU).running = false ∧
     (init_cpu prevCPU).pc = 0 ∧ (init_cpu prevCPU).flags = 0 ∧
     (∀ r, (init_cpu prevCPU).regs r = 0) ∧
     (∀ i, (init_cpu prevCPU).memory i = 0) ∧
     ∃ c2, load_program [1, 2, 3] prevCPU = some c2 ∧ c2.pc = 0 ∧
       c2.running = true ∧ c2.sp = prevCPU.sp ∧
       (∀ r, c2.regs r = prevCPU.regs r) ∧
       (∀ i, i < ([1, 2, 3] : List Nat).length →
         c2.memory i = ([1, 2, 3] : List Nat).getD i 0) ∧
       (∀ i, ([1, 2, 3] : List Nat).length ≤ i →
         c2.memory i = prevCPU.memory i)) :=
  ⟨by decide, c5_reset_and_load prevCPU [1, 2, 3] prevCPU (by decide)⟩

/-- Claim C6, counterexample.  The claim states that after any single text
write cursor_x < 80 and cursor_y < 25.  Writing the printable byte 97 at
column 79 leaves cursor_x = 80 (the deferred wrap), and writing a newline
at row 24 leaves cursor_y = 25 (the scroll only happens on the next
printable write). -/
theorem c6_cursor_exceeds_bounds :
    (putchar_screen 97 col79Screen).cursor_x = 80 ∧
    ¬ ((putchar_screen 97 col79Screen).cursor_x < 80) ∧
    (putchar_screen 10 row24Screen).cursor_y = 25 ∧
    ¬ ((putchar_screen 10 row24Screen).cursor_y < 25) := by decide

/-- Claim C6, amended.  After writing any printable byte (anything other
than newline, carriage return, backspace and tab) the cursor satisfies
cursor_x ≤ 80 and cursor_y < 25, from any starting screen; the control
bytes can leave cursor_x = 80 or push cursor_y past 24, the wrap and the
scroll being deferred to the next printable write. -/
theorem c6_printable_write_cursor_bounds (s : VScreen) (c : Nat)
    (h10 : c ≠ 10) (h13 : c ≠ 13) (h8 : c ≠ 8) (h9 : c ≠ 9) :
    (putchar_screen c s).cursor_x ≤ 80 ∧
    (putchar_screen c s).cursor_y < 25 := by
  unfold putchar_screen
  rw [if_neg h10, if_neg h13, if_neg h8, if_neg h9]
  refine ⟨?_, ?_⟩ <;> dsimp only <;> split_ifs <;> omega

/-- Claim C6, witness for the amended theorem: writing the byte 97 to a
fresh screen. -/
theorem c6_printable_write_cursor_bounds_witness :
    ((97 : Nat) ≠ 10 ∧ (97 : Nat) ≠ 13 ∧ (97 : Nat) ≠ 8 ∧ (97 : Nat) ≠ 9) ∧
    ((putchar_screen 97 init_screen).cursor_x ≤ 80 ∧
     (putchar_screen 97 init_screen).cursor_y < 25) :=
  ⟨by decide,
   c6_printable_write_cursor_bounds init_screen 97 (by decide) (by decide)
     (by decide) (by decide)⟩

/-- Claim C7.  Executing CMP r1, r2 with register values a and b sets the
Zero flag (bit 0) exactly when a = b, the Greater flag (bit 1) exactly
when a > b, the Less flag (bit 2) exactly when a < b, and exactly one of
the three flags is set. -/
theorem c7_cmp_flags (e : Nat) (m : Machine) (r1 r2 a b : Nat)
    (hpc : m.cpu.pc + 2 < 65536)
    (hop : m.cpu.memory m.cpu.pc = 0x5B)
    (h1 : m.cpu.memory (m.cpu.pc + 1) = r1)
    (h2 : m.cpu.memory (m.cpu.pc + 2) = r2)
    (hr1 : r1 < 8) (hr2 : r2 < 8)
    (ha : m.cpu.regs r1 = a) (hb : m.cpu.regs r2 = b) :
    ((execute_instruction e m).1.cpu.flags % 2 = 1 ↔ a = b) ∧
    ((execute_instruction e m).1.cpu.flags / 2 % 2 = 1 ↔ b < a) ∧
    ((execute_instruction e m).1.cpu.flags / 4 % 2 = 1 ↔ a < b) ∧
    (execute_instruction e m).1.cpu.flags % 2 +
      (execute_instruction e m).1.cpu.flags / 2 % 2 +
      (execute_instruction e m).1.cpu.flags / 4 % 2 = 1 := by
  have e1 : w16 (m.cpu.pc + 1) = m.cpu.pc + 1 := by unfold w16; omega
  have e2 : w16 (m.cpu.pc + 1 + 1) = m.cpu.pc + 2 := by unfold w16; omega
  have hg : m.cpu.pc + 1 + 1 < 65536 := by omega
  have hnot : ¬ (m.cpu.pc ≥ 65536) := by omega
  simp only [execute_instruction, e1, e2, hop, hnot, if_false, if_true,
    hg, ite_true, h1, h2, hr1, hr2, ha, hb]
  norm_num [hr1, hr2]
  rcases Nat.lt_trichotomy a b with h | h | h
  · simp [h, Nat.ne_of_lt h, Nat.lt_asymm h]
  · simp [h]
  · simp [h, (Nat.ne_of_lt h).symm, Nat.lt_asymm h]

/-- Claim C7, witness: CMP r1, r2 with regs r1 = 5, r2 = 9. -/
theorem c7_cmp_flags_witness :
    ((execute_instruction 0 cmpMachine).1.cpu.flags % 2 = 1 ↔ (5 : Nat) = 9) ∧
    ((execute_instruction 0 cmpMachine).1.cpu.flags / 2 % 2 = 1 ↔
      (9 : Nat) < 5) ∧
    ((execute_instruction 0 cmpMachine).1.cpu.flags / 4 % 2 = 1 ↔
      (5 : Nat) < 9) ∧
    (execute_instruction 0 cmpMachine).1.cpu.flags % 2 +
      (execute_instruction 0 cmpMachine).1.cpu.flags / 2 % 2 +
      (execute_instruction 0 cmpMachine).1.cpu.flags / 4 % 2 = 1 :=
  c7_cmp_flags 0 cmpMachine 1 2 5 9 (by decide) (by decide) (by decide)
    (by decide) (by decide) (by decide) (by decide) (by decide)

/-- Claim C8.  Executing ADD dst, r1, r2 with 16-bit register values a and
b stores (a + b) % 65536 into regs dst. -/
theorem c8_add_mod65536 (e : Nat) (m : Machine) (d r1 r2 a b : Nat)
    (hpc : m.cpu.pc + 3 < 65536)
    (hop : m.cpu.memory m.cpu.pc = 0x50)
    (h1 : m.cpu.memory (m.cpu.pc + 1) = d)
    (h2 : m.cpu.memory (m.cpu.pc + 2) = r1)
    (h3 : m.cpu.memory (m.cpu.pc + 3) = r2)
    (hd : d < 8) (hr1 : r1 < 8) (hr2 : r2 < 8)
    (ha : m.cpu.regs r1 = a) (hb : m.cpu.regs r2 = b)
    (_hA : a < 65536) (_hB : b < 65536) :
    (execute_instruction e m).1.cpu.regs d = (a + b) % 65536 := by
  have e1 : w16 (m.cpu.pc + 1) = m.cpu.pc + 1 := by unfold w16; omega
  have e2 : w16 (m.cpu.pc + 1 + 1) = m.cpu.pc + 2 := by unfold w16; omega
  have e3 : w16 (m.cpu.pc + 1 + 2) = m.cpu.pc + 3 := by unfold w16; omega
  have hg : m.cpu.pc + 1 + 2 < 65536 := by omega
  have hnot : ¬ (m.cpu.pc ≥ 65536) := by omega
  simp only [execute_instruction, e1, e2, e3, hop, hnot, if_false, hg,
    ite_true, h1, h2, h3, hd, hr1, hr2, ha, hb, regWrite]
  norm_num [hd, hr1, hr2, regWrite]

/-- Claim C8, witness: ADD r0, r1, r2 with regs r1 = 40000, r2 = 30000;
the sum 70000 wraps to 4464. -/
theorem c8_add_mod65536_witness :
    (execute_instruction 0 addMachine).1.cpu.regs 0 =
      (40000 + 30000) % 65536 :=
  c8_add_mod65536 0 addMachine 0 1 2 40000 30000 (by decide) (by decide)
    (by decide) (by decide) (by decide) (by decide) (by decide) (by decide)
    (by decide) (by decide) (by decide) (by decide)

/-- Claim C9.  Every pixel write is clipped: a set_pixel request outside
[0,320) x [0,200) leaves the screen (in particular the pixel plane)
entirely unchanged, and since the four drawing primitives write only
through set_pixel, none of them ever changes a cell outside the plane. -/
theorem c9_pixel_clipping :
    (∀ (s : VScreen) (x y : Int) (v : Nat),
      x < 0 ∨ 320 ≤ x ∨ y < 0 ∨ 200 ≤ y → set_pixel x y v s = s) ∧
    (∀ (s : VScreen) (j i : Nat), 320 ≤ i ∨ 200 ≤ j →
      (∀ a b c d : Int, (draw_line a b c d s).pixels j i = s.pixels j i) ∧
      (∀ a b c d : Int, (draw_rect a b c d s).pixels j i = s.pixels j i) ∧
      (∀ a b c d : Int, (fill_rect a b c d s).pixels j i = s.pixels j i) ∧
      (∀ a b c : Int, (draw_circle a b c s).pixels j i = s.pixels j i)) := by
  refine ⟨fun s x y v h => set_pixel_out s x y v h, fun s j i h => ?_⟩
  exact ⟨fun a b c d => draw_line_pixels_out j i h a b c d s,
         fun a b c d => draw_rect_pixels_out j i h a b c d s,
         fun a b c d => fill_rect_pixels_out j i h a b c d s,
         fun a b c => draw_circle_pixels_out j i h a b c s⟩

/-- Claim C9, witness: a direct write at x = 400 is dropped, and a line
running past the right edge leaves the cell at column 400 untouched. -/
theorem c9_pixel_clipping_witness :
    set_pixel 400 10 1 init_screen = init_screen ∧
    (draw_line 0 0 500 0 init_screen).pixels 5 400 =
      init_screen.pixels 5 400 :=
  ⟨c9_pixel_clipping.1 init_screen 400 10 1 (by omega),
   (c9_pixel_clipping.2 init_screen 5 400 (by omega)).1 0 0 500 0⟩

set_option maxHeartbeats 2000000 in
/-- Claim C10.  PUSH r followed by POP r2, starting from a balanced stack
(2 ≤ sp ≤ 255) and a program placed below the stack region, restores sp
and stores into regs r2 the byte-swapped value
(v % 256) * 256 + v / 256; the round trip returns v itself exactly when
the two bytes of v agree. -/
theorem c10_push_pop_byte_swap (e1 e2 : Nat) (m : Machine) (r r2 v : Nat)
    (hop : m.cpu.memory m.cpu.pc = 0x42)
    (h1 : m.cpu.memory (m.cpu.pc + 1) = r)
    (h2 : m.cpu.memory (m.cpu.pc + 2) = 0x43)
    (h3 : m.cpu.memory (m.cpu.pc + 3) = r2)
    (hr : r < 8) (hr2 : r2 < 8)
    (hv : m.cpu.regs r = v) (hvlt : v < 65536)
    (hsp2 : 2 ≤ m.cpu.sp) (hsp255 : m.cpu.sp ≤ 255)
    (hpc : m.cpu.pc + 3 < 65280) :
    (execute_instruction e2 (execute_instruction e1 m).1).1.cpu.regs r2 =
      v % 256 * 256 + v / 256 ∧
    (execute_instruction e2 (execute_instruction e1 m).1).1.cpu.sp =
      m.cpu.sp ∧
    ((execute_instruction e2 (execute_instruction e1 m).1).1.cpu.regs r2 = v
      ↔ v % 256 = v / 256) := by
  have main :
      (execute_instruction e2 (execute_instruction e1 m).1).1.cpu.regs r2 =
        v % 256 * 256 + v / 256 ∧
      (execute_instruction e2 (execute_instruction e1 m).1).1.cpu.sp =
        m.cpu.sp := by
    have ew1 : w16 (m.cpu.pc + 1) = m.cpu.pc + 1 := by unfold w16; omega
    have ew2 : w16 (m.cpu.pc + 1 + 1) = m.cpu.pc + 2 := by unfold w16; omega
    have hp1 : m.cpu.pc + 1 < 65536 := by omega
    have hnot : ¬ (m.cpu.pc ≥ 65536) := by omega
    have hsd1 : spDec m.cpu.sp = m.cpu.sp - 1 := by unfold spDec; omega
    have hsd2 : spDec (m.cpu.sp - 1) = m.cpu.sp - 2 := by unfold spDec; omega
    have hspos : m.cpu.sp > 0 := by omega
    have hstep1 : (execute_instruction e1 m).1 =
        { m with cpu :=
          { m.cpu with
            pc := m.cpu.pc + 2
            sp := m.cpu.sp - 2
            memory := memWrite
              (memWrite m.cpu.memory (stackBase + m.cpu.sp) (v % 256))
              (stackBase + (m.cpu.sp - 1)) (v / 256 % 256) } } := by
      simp only [execute_instruction, hnot, if_false, ite_true, hop, ew1,
        ew2, hp1, h1, hr, hspos, hv, hsd1, hsd2]
      norm_num [hr, hspos]
    set mem1 := memWrite
        (memWrite m.cpu.memory (stackBase + m.cpu.sp) (v % 256))
        (stackBase + (m.cpu.sp - 1)) (v / 256 % 256) with hmem1
    have hm2 : mem1 (m.cpu.pc + 2) = 0x43 := by
      rw [hmem1]
      unfold memWrite stackBase
      rw [if_neg (by omega), if_neg (by omega)]
      exact h2
    have hm3 : mem1 (m.cpu.pc + 3) = r2 := by
      rw [hmem1]
      unfold memWrite stackBase
      rw [if_neg (by omega), if_neg (by omega)]
      exact h3
    have hlo : mem1 (stackBase + (m.cpu.sp - 1)) = v / 256 := by
      rw [hmem1]
      unfold memWrite
      rw [if_pos rfl]
      omega
    have hhi : mem1 (stackBase + m.cpu.sp) = v % 256 := by
      rw [hmem1]
      unfold memWrite stackBase
      rw [if_neg (by omega), if_pos rfl]
    have ew1b : w16 (m.cpu.pc + 2 + 1) = m.cpu.pc + 3 := by unfold w16; omega
    have hp2 : m.cpu.pc + 2 < 65536 := by omega
    have hnot2 : ¬ (m.cpu.pc + 2 ≥ 65536) := by omega
    have hsplt : m.cpu.sp - 2 < 255 := by omega
    have hp3 : m.cpu.pc + 3 < 65536 := by omega
    have hsi1 : spInc (m.cpu.sp - 2) = m.cpu.sp - 1 := by unfold spInc; omega
    have hsi2 : spInc (m.cpu.sp - 1) = m.cpu.sp := by unfold spInc; omega
    rw [hstep1]
    simp only [execute_instruction, hnot2, if_false, ite_true, hm2, hm3,
      ew1b, hp2, hp3, hr2, hsplt, hsi1, hsi2, hlo, hhi]
    norm_num [hr2, hsplt, regWrite]
    rw [word16_eq (v / 256) (v % 256) (by omega)]
    omega
  refine ⟨main.1, main.2, ?_⟩
  rw [main.1]
  omega

/-- Claim C10, witness: PUSH r0 then POP r1 with regs r0 = 0x1234 = 4660;
the popped value is 0x3412 = 13330 and sp is restored. -/
theorem c10_push_pop_byte_swap_witness :
    (execute_instruction 0 (execute_instruction 0 pushPopMachine).1).1.cpu.regs
        1 = 4660 % 256 * 256 + 4660 / 256 ∧
    (execute_instruction 0 (execute_instruction 0 pushPopMachine).1).1.cpu.sp
      = pushPopMachine.cpu.sp ∧
    ((execute_instruction 0
        (execute_instruction 0 pushPopMachine).1).1.cpu.regs 1 = 4660
      ↔ 4660 % 256 = 4660 / 256) :=
  c10_push_pop_byte_swap 0 0 pushPopMachine 0 1 4660 (by decide) (by decide)
    (by decide) (by decide) (by decide) (by decide) (by decide) (by decide)
    (by decide) (by decide) (by decide)
